import Mathlib

/-!
Verification of the authentication core of `mcp-remote`:
the six-tier OAuth scope resolver, client-credential persistence and
invalidation (`src/lib/node-oauth-client-provider.ts`), and the
cross-process auth coordination, adoption and bridge polling logic
(`src/lib/coordination.ts`).

Shallow embedding: network and filesystem results (probe statuses, poll
responses, persisted files) are supplied by explicit environment records;
async functions become pure functions of those environments; JS truthiness
tests on optional strings are spelled out where they occur.
-/

deriving instance DecidableEq for Except

/-! ## Data model: the OAuth client provider -/

/-- The slice of a persisted dynamic-registration record
(`OAuthClientInformationFull`) that the scope logic observes. -/
structure ClientInfo where
  client_id : String
  scope : Option String
deriving DecidableEq, Repr

/-- State of a `NodeOAuthClientProvider` together with the persisted
credential files for its server hash.  `memClientInfo` is the in-memory
`_clientInfo` cache; the three `...File` fields are `client_info.json`,
`tokens.json` and `code_verifier.txt` (contents already schema-validated,
malformed files read as absent). -/
structure ProviderState where
  staticOAuthClientMetadataScope : Option String
  wwwAuthenticateScope : Option String
  protectedResourceScopesSupported : Option (List String)
  authorizationServerScopesSupported : Option (List String)
  staticOAuthClientInfo : Option ClientInfo
  memClientInfo : Option ClientInfo
  clientInfoFile : Option ClientInfo
  tokensFilePresent : Bool
  verifierFilePresent : Bool
deriving DecidableEq, Repr

/-- JS `String.prototype.trim`: strip leading and trailing whitespace.
Modelled on the character list (the whitespace classes agree on ASCII). -/
def jsTrim (s : String) : String :=
  ⟨((s.data.dropWhile Char.isWhitespace).reverse.dropWhile Char.isWhitespace).reverse⟩

/-- JS `Array.prototype.join(' ')`. -/
def joinSpace : List String → String
  | [] => ""
  | [s] => s
  | s :: rest => s ++ " " ++ joinSpace rest

/-- JS guard `x && x.trim().length > 0` applied to an optional string field:
the string is kept when present and non-blank.  (The truthiness test on the
string itself is subsumed by the trimmed-length test, since a string with a
non-empty trim is non-empty.) -/
def nonBlankScope : Option String → Option String
  | some s => if 0 < (jsTrim s).length then some s else none
  | none => none

/-- JS guard `x?.scopes_supported?.length` followed by
`scopes_supported.join(' ')`: the space-joined list is kept when the list is
present and non-empty.  The joined string itself may still be blank, e.g.
for the list `[""]`. -/
def joinedScopes : Option (List String) → Option String
  | some l => if l.length ≠ 0 then some (joinSpace l) else none
  | none => none

/-- `getEffectiveScope` (node-oauth-client-provider.ts:112-154): the six-tier
priority cascade over static metadata override, WWW-Authenticate scope,
protected-resource metadata scopes, registration-response scope
(`this._clientInfo?.scope`), authorization-server metadata scopes, and the
hardcoded default.  `clientMetadata` (lines 66-80) assigns
`scope: effectiveScope` after spreading the static override, so the scope it
exposes is exactly this value. -/
def getEffectiveScope (p : ProviderState) : String :=
  match nonBlankScope p.staticOAuthClientMetadataScope with
  | some s => s
  | none =>
  match nonBlankScope p.wwwAuthenticateScope with
  | some s => s
  | none =>
  match joinedScopes p.protectedResourceScopesSupported with
  | some s => s
  | none =>
  match nonBlankScope (p.memClientInfo.bind ClientInfo.scope) with
  | some s => s
  | none =>
  match joinedScopes p.authorizationServerScopesSupported with
  | some s => s
  | none => "openid email profile"

/-- The six tier values exactly as claim C1 reads them: the two
metadata-scopes sources are space-joined, and every tier (including the
joined ones) is to be selected only when non-empty after trimming. -/
def claimScopeTiers (p : ProviderState) : List (Option String) :=
  [p.staticOAuthClientMetadataScope,
   p.wwwAuthenticateScope,
   (p.protectedResourceScopesSupported).map joinSpace,
   p.memClientInfo.bind ClientInfo.scope,
   (p.authorizationServerScopesSupported).map joinSpace]

/-- First tier value that is non-empty after trimming, else the default. -/
def firstNonBlankTier : List (Option String) → String
  | [] => "openid email profile"
  | some s :: rest => if 0 < (jsTrim s).length then s else firstNonBlankTier rest
  | none :: rest => firstNonBlankTier rest

/-- The resolver exactly as claim C1 states it. -/
def claimEffectiveScope (p : ProviderState) : String :=
  firstNonBlankTier (claimScopeTiers p)

/-- First tier that is available, else the default. -/
def firstPresentTier : List (Option String) → String
  | [] => "openid email profile"
  | some s :: _ => s
  | none :: rest => firstPresentTier rest

/-- The resolver as amended: a string tier is available when non-empty after
trimming, a metadata-scopes tier is available when the scopes *list* is
non-empty (its space-joined value is then returned verbatim, even when that
joined string is blank). -/
def amendedEffectiveScope (p : ProviderState) : String :=
  firstPresentTier
    [nonBlankScope p.staticOAuthClientMetadataScope,
     nonBlankScope p.wwwAuthenticateScope,
     joinedScopes p.protectedResourceScopesSupported,
     nonBlankScope (p.memClientInfo.bind ClientInfo.scope),
     joinedScopes p.authorizationServerScopesSupported]

/-- Provider state with every scope source absent. -/
def emptyProviderState : ProviderState :=
  { staticOAuthClientMetadataScope := none
    wwwAuthenticateScope := none
    protectedResourceScopesSupported := none
    authorizationServerScopesSupported := none
    staticOAuthClientInfo := none
    memClientInfo := none
    clientInfoFile := none
    tokensFilePresent := false
    verifierFilePresent := false }

/-- Provider state whose only scope source is a protected-resource metadata
scopes list containing the single blank scope `""`. -/
def blankPrmScopeState : ProviderState :=
  { emptyProviderState with protectedResourceScopesSupported := some [""] }

/-! ## Data model: lockfile validity -/

/-- A lock record (`LockfileData`): `{pid, port, timestamp}` in epoch ms. -/
structure LockfileData where
  pid : Nat
  port : Nat
  timestamp : Int
deriving DecidableEq, Repr

/-- Environment a lock-validity check runs in: the clock (`Date.now()`), the
result of the `process.kill(pid, 0)` existence probe (`isPidRunning`, any
failure read as `false`), and the HTTP probe of
`http://127.0.0.1:{port}/wait-for-auth?poll=false` — `some status`, or
`none` when the request failed or was aborted by its 1 s timeout. -/
structure LockProbeEnv where
  now : Int
  pidRunning : Bool
  probeStatus : Option Nat
deriving DecidableEq, Repr

/-- `MAX_LOCK_AGE = 30 * 60 * 1000` (coordination.ts). -/
def MAX_LOCK_AGE : Int := 30 * 60 * 1000

/-- `isLockValid` (coordination.ts): age check, then liveness check, then
endpoint probe accepting statuses 200 and 202; any probe failure is
invalid. -/
def isLockValid (env : LockProbeEnv) (lockData : LockfileData) : Bool :=
  if env.now - lockData.timestamp > MAX_LOCK_AGE then false
  else if !env.pidRunning then false
  else
    match env.probeStatus with
    | some status => status == 200 || status == 202
    | none => false

/-! ## Data model: provider credential operations -/

/-- Result of `clientInformation()`: the provider state after the call (the
in-memory `_clientInfo` cache may be updated), the returned value, and
whether `readJsonFile` was called on the persisted registration file. -/
structure ClientInfoRead where
  state : ProviderState
  result : Option ClientInfo
  fileRead : Bool
deriving DecidableEq, Repr

/-- Result of `saveClientInformation(x)`: the provider state after the call
and whether `writeJsonFile` was called on the persisted registration file. -/
structure ClientInfoSave where
  state : ProviderState
  fileWritten : Bool
deriving DecidableEq, Repr

/-- `clientInformation()` (node-oauth-client-provider.ts:160-179): a
configured static client info is cached and returned without touching the
file; otherwise the persisted registration file is read (schema-validated,
absent on failure) and cached when found. -/
def clientInformation (p : ProviderState) : ClientInfoRead :=
  match p.staticOAuthClientInfo with
  | some s => ⟨{ p with memClientInfo := some s }, some s, false⟩
  | none =>
    match p.clientInfoFile with
    | some ci => ⟨{ p with memClientInfo := some ci }, some ci, true⟩
    | none => ⟨p, none, true⟩

/-- `saveClientInformation(x)` (node-oauth-client-provider.ts:185-189):
caches `x` in `_clientInfo` and writes the persisted registration file,
unconditionally — there is no static-client-info guard on this path. -/
def saveClientInformation (p : ProviderState) (x : ClientInfo) : ClientInfoSave :=
  ⟨{ p with memClientInfo := some x, clientInfoFile := some x }, true⟩

/-- `invalidateCredentials(scope)` (node-oauth-client-provider.ts:348-381):
the four switch cases delete the corresponding files (and, for client
scopes, clear the `_clientInfo` cache); the default case throws. -/
def invalidateCredentials (p : ProviderState) (scope : String) :
    Except String ProviderState :=
  if scope = "all" then
    .ok { p with clientInfoFile := none, tokensFilePresent := false,
                 verifierFilePresent := false, memClientInfo := none }
  else if scope = "client" then
    .ok { p with clientInfoFile := none, memClientInfo := none }
  else if scope = "tokens" then
    .ok { p with tokensFilePresent := false }
  else if scope = "verifier" then
    .ok { p with verifierFilePresent := false }
  else
    .error ("Unknown credential scope: " ++ scope)

/-- No scope source other than the registration response is configured:
tiers 1, 2, 3 and 5 of the cascade are all unavailable. -/
def noOtherScopeSources (p : ProviderState) : Prop :=
  nonBlankScope p.staticOAuthClientMetadataScope = none ∧
  nonBlankScope p.wwwAuthenticateScope = none ∧
  joinedScopes p.protectedResourceScopesSupported = none ∧
  joinedScopes p.authorizationServerScopesSupported = none

instance (p : ProviderState) : Decidable (noOtherScopeSources p) := by
  unfold noOtherScopeSources; infer_instance

/-! ## Data model: auth coordination -/

/-- The HTTP server kept in an `AuthCoordinatorState`: the adopting branch
starts a dummy server on an ephemeral port, the primary branch the real
OAuth callback server. -/
inductive ServerKind
  | dummy
  | callback
deriving DecidableEq, Repr

/-- Denotation of the `waitForAuthCode` closure an auth-coordination result
carries.  `adoptionNeverSettles` is the adopting branch's
`() => new Promise<string>(() => {})`: a promise with no executor action,
which never resolves and never rejects. -/
inductive WaitForAuthCode
  | callbackLongPoll
  | adoptionNeverSettles
  | bridgePollWait
  | emitOnlyReject
deriving DecidableEq, Repr

/-- `AuthCoordinatorState` (coordination.ts). -/
structure AuthCoordinatorState where
  server : Option ServerKind
  waitForAuthCode : WaitForAuthCode
  skipBrowserAuth : Bool
deriving DecidableEq, Repr

/-- One observed response of the adoption long-poll
`GET http://127.0.0.1:{port}/wait-for-auth`. -/
inductive PollResult
  | status (code : Nat)
  | transportError
deriving DecidableEq, Repr

/-- `waitForAuthentication` (coordination.ts): unbounded poll loop —
200 succeeds, 202 retries after 1 s, any other status aborts with failure,
a transport error retries after 2 s.  The argument is the finite observed
prefix of responses; `none` means the loop is still polling when the trace
runs out. -/
def waitForAuthentication : List PollResult → Option Bool
  | [] => none
  | .status s :: rest =>
    if s = 200 then some true
    else if s = 202 then waitForAuthentication rest
    else some false
  | .transportError :: rest => waitForAuthentication rest

/-- Environment of one `coordinateAuth` run: the platform, the lockfile read
(`checkLockfile`, when attempted), the lock-validity probe environment, and
the observed adoption long-poll responses. -/
structure CoordEnv where
  isWin32 : Bool
  lockfile : Option LockfileData
  lockEnv : LockProbeEnv
  adoptionPolls : List PollResult
deriving DecidableEq, Repr

/-- Result of `coordinateAuth` together with its observable filesystem
effects: whether `checkLockfile` was called, whether `isLockValid` ran,
whether `deleteLockfile` ran, and whether `createLockfile` ran. -/
structure CoordOutcome where
  state : AuthCoordinatorState
  readLockfile : Bool
  validatedLockfile : Bool
  deletedLockfile : Bool
  createdLockfile : Bool
deriving DecidableEq, Repr

/-- The become-primary tail of `coordinateAuth`: start the callback server
with long poll, create our own lockfile, return the primary handlers. -/
def primaryOutcome (readLk validated deleted : Bool) : CoordOutcome :=
  ⟨⟨some .callback, .callbackLongPoll, false⟩, readLk, validated, deleted, true⟩

/-- `coordinateAuth` (coordination.ts:373-496).  On win32 the lockfile check
is skipped entirely.  A found lockfile is validated; a valid one leads to
the adoption attempt (`waitForAuthentication`), whose success returns the
dummy-server state with the never-settling `waitForAuthCode` — and whose
failure, like an invalid lockfile, deletes the lockfile and falls through to
becoming primary.  `none` when the adoption poll loop is still running as
the observed trace ends. -/
def coordinateAuth (env : CoordEnv) : Option CoordOutcome :=
  let lockData := if env.isWin32 then none else env.lockfile
  match lockData with
  | none => some (primaryOutcome (!env.isWin32) false false)
  | some lock =>
    if isLockValid env.lockEnv lock then
      match waitForAuthentication env.adoptionPolls with
      | some true => some ⟨⟨some .dummy, .adoptionNeverSettles, true⟩, true, true, false, false⟩
      | some false => some (primaryOutcome true true true)
      | none => none
    else
      some (primaryOutcome true true true)

/-- `initializeAuth` of `createLazyAuthCoordinator` (coordination.ts:229-254)
as a transition on the `authState` memo cell (`null` at coordinator
creation).  `strategyResult` is what running the selected strategy
(`coordinateBridgeAuth` for bridge mode, `coordinateAuth` otherwise) would
produce on this call.  Returns the state handed to the caller, the memo cell
afterwards, and whether strategy selection ran during this call. -/
def initializeAuth (strategyResult : Except String AuthCoordinatorState)
    (authState : Option AuthCoordinatorState) :
    Except String (AuthCoordinatorState × Option AuthCoordinatorState × Bool) :=
  match authState with
  | some st => .ok (st, some st, false)
  | none =>
    match strategyResult with
    | .ok st => .ok (st, some st, true)
    | .error e => .error e

/-! ## Data model: bridge auth polling -/

/-- The JSON fields `extractAuthCode` looks at after a successful parse. -/
structure JsonFields where
  code : Option String
  authorization_code : Option String
deriving DecidableEq, Repr

/-- A bridge poll response body, as seen by `extractAuthCode`:
blank (trims to empty), non-JSON, or parsed JSON fields. -/
inductive BridgeBody
  | blank
  | notJson
  | json (fields : JsonFields)
deriving DecidableEq, Repr

/-- JS truthiness of an optional string (`undefined` and `''` are falsy). -/
def jsTruthy : Option String → Bool
  | some s => s ≠ ""
  | none => false

/-- `extractAuthCode` (coordination.ts:272-284): empty-after-trim and
unparseable bodies yield `undefined`; otherwise
`parsed.code || parsed.authorization_code`. -/
def extractAuthCode : BridgeBody → Option String
  | .blank => none
  | .notJson => none
  | .json f => if jsTruthy f.code then f.code else f.authorization_code

/-- One observed bridge poll result: a response with status and body, or a
network error (including the 10 s per-request abort). -/
inductive BridgeReply
  | reply (status : Nat) (body : BridgeBody)
  | networkError
deriving DecidableEq, Repr

/-- How a `waitForBridgeAuthCode` run ends: a code, the terminal
410 failure, the overall-timeout failure (carrying the whole seconds its
message reports), or the observed trace running out mid-loop. -/
inductive BridgeOutcome
  | code (c : String)
  | sessionExpired
  | timeoutFailure (seconds : Nat)
  | outOfTrace
deriving DecidableEq, Repr

/-- A `waitForBridgeAuthCode` run: its outcome and how many poll requests it
issued. -/
structure BridgeRun where
  outcome : BridgeOutcome
  requests : Nat
deriving DecidableEq, Repr

/-- The `while (Date.now() - startTime < timeoutMs)` loop of
`waitForBridgeAuthCode` (coordination.ts:286-331).  Time is the
single-threaded idealization: each iteration's `await` advances the clock by
the `pollIntervalMs` sleep.  A 200 response yields its extracted code when
truthy, otherwise keeps polling; 202/204/404, any unexpected status and any
network error keep polling; 410 is terminal.  Once the elapsed clock reaches
the timeout, the loop stops issuing requests and fails with the timeout
error reporting `Math.floor(timeoutMs / 1000)` seconds. -/
def bridgePollLoop (pollIntervalMs timeoutMs elapsed requests : Nat)
    (replies : List BridgeReply) : BridgeRun :=
    if elapsed < timeoutMs then
      match replies with
      | [] => ⟨.outOfTrace, requests⟩
      | .networkError :: rest =>
        bridgePollLoop pollIntervalMs timeoutMs (elapsed + pollIntervalMs) (requests + 1) rest
      | .reply status body :: rest =>
        if status = 200 then
          match extractAuthCode body with
          | some c =>
            if c = "" then
              bridgePollLoop pollIntervalMs timeoutMs (elapsed + pollIntervalMs) (requests + 1) rest
            else ⟨.code c, requests + 1⟩
          | none =>
            bridgePollLoop pollIntervalMs timeoutMs (elapsed + pollIntervalMs) (requests + 1) rest
        else if status = 202 ∨ status = 204 ∨ status = 404 then
          bridgePollLoop pollIntervalMs timeoutMs (elapsed + pollIntervalMs) (requests + 1) rest
        else if status = 410 then ⟨.sessionExpired, requests + 1⟩
        else
          bridgePollLoop pollIntervalMs timeoutMs (elapsed + pollIntervalMs) (requests + 1) rest
    else ⟨.timeoutFailure (timeoutMs / 1000), requests⟩

/-- `waitForBridgeAuthCode(pollUrl, pollIntervalMs, timeoutMs)` run against
an observed trace of poll results. -/
def waitForBridgeAuthCode (pollIntervalMs timeoutMs : Nat)
    (replies : List BridgeReply) : BridgeRun :=
  bridgePollLoop pollIntervalMs timeoutMs 0 0 replies

/-- The timeout error's message text. -/
def timeoutMessageOf (seconds : Nat) : String :=
  "Timed out waiting for auth code from bridge after " ++ toString seconds ++ " seconds."

/-- The error message, if any, a bridge run surfaces. -/
def bridgeErrorMessage : BridgeOutcome → Option String
  | .code _ => none
  | .sessionExpired => some "Auth bridge session expired"
  | .timeoutFailure s => some (timeoutMessageOf s)
  | .outOfTrace => none

/-- `options.authBridgePollIntervalMs || 2000` in `coordinateBridgeAuth`
(coordination.ts:340): the interval actually handed to the poll loop;
absent and `0` are falsy and default to 2000 ms. -/
def effectivePollIntervalMs (authBridgePollIntervalMs : Nat) : Nat :=
  if authBridgePollIntervalMs = 0 then 2000 else authBridgePollIntervalMs

/-- A reply keeps the poll loop going: 202/204/404, a 200 whose body has no
truthy code, an unexpected status, or a network error. -/
def keepsPolling : BridgeReply → Bool
  | .networkError => true
  | .reply status body =>
    if status = 200 then !(jsTruthy (extractAuthCode body))
    else if status = 410 then false
    else true

/-! ## Theorems -/

/-- C1 counterexample: with the protected-resource metadata advertising the
single blank scope `""` and every other source absent, `getEffectiveScope`
returns the blank joined string `""`, while the claim's
first-non-empty-after-trimming rule would fall through to the default
`"openid email profile"`; so the effective scope is not the first non-empty
(after trimming) source. -/
theorem scope_blank_prm_counterexample :
    getEffectiveScope blankPrmScopeState = "" ∧
    claimEffectiveScope blankPrmScopeState = "openid email profile" ∧
    getEffectiveScope blankPrmScopeState ≠ claimEffectiveScope blankPrmScopeState := by
  decide

/-- C1 (amended): the effective scope exposed in `clientMetadata.scope` is
the first *available* source in the fixed priority order, where a string
source is available when non-empty after trimming and a metadata-scopes
source is available when its scopes list is non-empty (its space-joined
value is then returned verbatim, even if blank); an explicitly configured
empty-string scope is treated as absent and falls through; with all sources
absent the result is `"openid email profile"`. -/
theorem scope_resolution_amended (p : ProviderState) :
    getEffectiveScope p = amendedEffectiveScope p ∧
    getEffectiveScope { p with staticOAuthClientMetadataScope := some "" } =
      getEffectiveScope { p with staticOAuthClientMetadataScope := none } ∧
    getEffectiveScope emptyProviderState = "openid email profile" := by
  refine ⟨?_, ?_, rfl⟩
  · unfold getEffectiveScope amendedEffectiveScope
    cases nonBlankScope p.staticOAuthClientMetadataScope <;>
    cases nonBlankScope p.wwwAuthenticateScope <;>
    cases joinedScopes p.protectedResourceScopesSupported <;>
    cases nonBlankScope (p.memClientInfo.bind ClientInfo.scope) <;>
    cases joinedScopes p.authorizationServerScopesSupported <;>
    rfl
  · have h : nonBlankScope (some "") = (none : Option String) := by decide
    have h' : nonBlankScope (none : Option String) = none := rfl
    simp only [getEffectiveScope, h, h']

/-- C2: `isLockValid` is true exactly when the record's age is at most
30 minutes, the owning process is alive, and the probe answered 200 or 202;
in particular a record older than 30 minutes is invalid regardless of
liveness and reachability. -/
theorem isLockValid_iff (env : LockProbeEnv) (lockData : LockfileData) :
    (isLockValid env lockData = true ↔
      (env.now - lockData.timestamp ≤ MAX_LOCK_AGE ∧ env.pidRunning = true ∧
        (env.probeStatus = some 200 ∨ env.probeStatus = some 202))) ∧
    (MAX_LOCK_AGE < env.now - lockData.timestamp →
      isLockValid env lockData = false) := by
  rcases env with ⟨now, pidRunning, probeStatus⟩
  unfold isLockValid
  constructor
  · rcases probeStatus with _ | s <;> cases pidRunning <;>
      simp
  · intro hage
    simp only
    rw [if_pos (by simpa [MAX_LOCK_AGE] using hage)]

/-- C3: whenever a non-win32 run finds a lockfile that validates and the
adoption long-poll eventually answers 200, `coordinateAuth` returns the
adopting state: `skipBrowserAuth = true`, and its `waitForAuthCode` is the
never-settling `() => new Promise<string>(() => {})`, which never resolves
and never rejects. -/
theorem coordinateAuth_adoption_never_settles (env : CoordEnv) (lock : LockfileData)
    (hwin : env.isWin32 = false) (hlock : env.lockfile = some lock)
    (hvalid : isLockValid env.lockEnv lock = true)
    (hadopt : waitForAuthentication env.adoptionPolls = some true) :
    coordinateAuth env =
      some ⟨⟨some .dummy, .adoptionNeverSettles, true⟩, true, true, false, false⟩ := by
  simp [coordinateAuth, hwin, hlock, hvalid, hadopt]

/-- Witness for C3 at a concrete environment: a fresh, live, reachable lock
and an adoption poll that answers 202 then 200. -/
theorem coordinateAuth_adoption_never_settles_witness :
    coordinateAuth ⟨false, some ⟨4242, 3030, 0⟩, ⟨1000, true, some 200⟩,
        [.status 202, .status 200]⟩ =
      some ⟨⟨some .dummy, .adoptionNeverSettles, true⟩, true, true, false, false⟩ :=
  coordinateAuth_adoption_never_settles _ ⟨4242, 3030, 0⟩ rfl rfl (by decide) (by decide)

/-- C9: on win32 `coordinateAuth` skips the lockfile check entirely — it
never reads (`readLockfile = false`) or validates (`validatedLockfile =
false`) any lock record, never deletes one, and always becomes primary:
the callback server's long-poll `waitForAuthCode`, `skipBrowserAuth =
false`, and its own lockfile created. -/
theorem coordinateAuth_win32_always_primary (env : CoordEnv)
    (h : env.isWin32 = true) :
    coordinateAuth env =
      some ⟨⟨some .callback, .callbackLongPoll, false⟩, false, false, false, true⟩ := by
  simp [coordinateAuth, h, primaryOutcome]

/-- Witness for C9 at a concrete environment whose lock record would have
been valid (fresh, live, probe 200) had it been checked. -/
theorem coordinateAuth_win32_always_primary_witness :
    isLockValid ⟨1000, true, some 200⟩ ⟨4242, 3030, 0⟩ = true ∧
    coordinateAuth ⟨true, some ⟨4242, 3030, 0⟩, ⟨1000, true, some 200⟩, [.status 200]⟩ =
      some ⟨⟨some .callback, .callbackLongPoll, false⟩, false, false, false, true⟩ :=
  ⟨by decide, coordinateAuth_win32_always_primary _ rfl⟩

/-- C8: `initializeAuth` memoizes.  When the strategy computation the first
call runs succeeds with state `st`, that call stores and returns `st` with
strategy selection having run; a subsequent call returns the identical
memoized state without running strategy selection at all (whatever a fresh
selection would have produced). -/
theorem initializeAuth_memoizes (strategyResult other : Except String AuthCoordinatorState)
    (st : AuthCoordinatorState) (h : strategyResult = .ok st) :
    initializeAuth strategyResult none = .ok (st, some st, true) ∧
    initializeAuth other (some st) = .ok (st, some st, false) := by
  subst h; exact ⟨rfl, rfl⟩

/-- Witness for C8 at a concrete strategy result. -/
theorem initializeAuth_memoizes_witness :
    initializeAuth (.ok ⟨none, .bridgePollWait, false⟩) none =
      .ok (⟨none, .bridgePollWait, false⟩, some ⟨none, .bridgePollWait, false⟩, true) ∧
    initializeAuth (.error "authBridgePollUrl is required for bridge auth mode")
        (some ⟨none, .bridgePollWait, false⟩) =
      .ok (⟨none, .bridgePollWait, false⟩, some ⟨none, .bridgePollWait, false⟩, false) :=
  initializeAuth_memoizes _ _ _ rfl

/-- C4 counterexample: with a configured overall timeout of 0 ms, the
`while (Date.now() - startTime < timeoutMs)` guard is already false at the
first check, so even though the first poll response would be 410 the loop
issues zero requests and fails with the timeout error — not with
"Auth bridge session expired", and not with exactly one request issued. -/
theorem bridge410_zero_timeout_counterexample :
    waitForBridgeAuthCode 1 0 [.reply 410 .blank] = ⟨.timeoutFailure 0, 0⟩ ∧
    bridgeErrorMessage (.timeoutFailure 0) ≠ some "Auth bridge session expired" := by
  decide

/-- C4 (amended): for every *positive* overall timeout and every poll
interval, when the first bridge poll response has status 410 the run fails
immediately with "Auth bridge session expired" after exactly one poll
request, whatever responses would have followed. -/
theorem bridge410_fails_immediately (pollIntervalMs timeoutMs : Nat)
    (body : BridgeBody) (rest : List BridgeReply) (hpos : 0 < timeoutMs) :
    waitForBridgeAuthCode pollIntervalMs timeoutMs (.reply 410 body :: rest) =
      ⟨.sessionExpired, 1⟩ ∧
    bridgeErrorMessage .sessionExpired = some "Auth bridge session expired" := by
  refine ⟨?_, rfl⟩
  simp [waitForBridgeAuthCode, bridgePollLoop, hpos]

/-- Witness for C4 at timeout 40 ms, interval 5 ms. -/
theorem bridge410_fails_immediately_witness :
    waitForBridgeAuthCode 5 40 [.reply 410 .blank] = ⟨.sessionExpired, 1⟩ ∧
    bridgeErrorMessage .sessionExpired = some "Auth bridge session expired" :=
  bridge410_fails_immediately 5 40 .blank [] (by decide)

/-- Loop-condition step: once the elapsed clock has reached the timeout the
loop stops issuing requests and fails with the timeout error, whatever
responses would still be available. -/
theorem bridgePollLoop_deadline (pollIntervalMs timeoutMs elapsed requests : Nat)
    (replies : List BridgeReply) (h : ¬ elapsed < timeoutMs) :
    bridgePollLoop pollIntervalMs timeoutMs elapsed requests replies =
      ⟨.timeoutFailure (timeoutMs / 1000), requests⟩ := by
  unfold bridgePollLoop
  rw [if_neg h]

/-- Iteration step on a response: inside the deadline, one request is issued
and the response is dispatched on its status. -/
theorem bridgePollLoop_reply_step (pollIntervalMs timeoutMs elapsed requests : Nat)
    (status : Nat) (body : BridgeBody) (rest : List BridgeReply)
    (h : elapsed < timeoutMs) :
    bridgePollLoop pollIntervalMs timeoutMs elapsed requests (.reply status body :: rest) =
      (if status = 200 then
        match extractAuthCode body with
        | some c =>
          if c = "" then
            bridgePollLoop pollIntervalMs timeoutMs (elapsed + pollIntervalMs) (requests + 1) rest
          else ⟨.code c, requests + 1⟩
        | none =>
          bridgePollLoop pollIntervalMs timeoutMs (elapsed + pollIntervalMs) (requests + 1) rest
      else if status = 202 ∨ status = 204 ∨ status = 404 then
        bridgePollLoop pollIntervalMs timeoutMs (elapsed + pollIntervalMs) (requests + 1) rest
      else if status = 410 then ⟨.sessionExpired, requests + 1⟩
      else
        bridgePollLoop pollIntervalMs timeoutMs (elapsed + pollIntervalMs) (requests + 1) rest) := by
  rw [bridgePollLoop, if_pos h]

/-- Iteration step on a network error: inside the deadline, one request is
issued and the loop keeps polling. -/
theorem bridgePollLoop_netError_step (pollIntervalMs timeoutMs elapsed requests : Nat)
    (rest : List BridgeReply) (h : elapsed < timeoutMs) :
    bridgePollLoop pollIntervalMs timeoutMs elapsed requests (.networkError :: rest) =
      bridgePollLoop pollIntervalMs timeoutMs (elapsed + pollIntervalMs) (requests + 1) rest := by
  rw [bridgePollLoop, if_pos h]

/-- Every reply in the trace keeps the loop polling and the remaining trace
is long enough for the elapsed clock to pass the deadline: the loop ends in
the timeout failure reporting `timeoutMs / 1000` seconds. -/
theorem bridgePollLoop_times_out (pollIntervalMs timeoutMs : Nat) :
    ∀ (replies : List BridgeReply) (elapsed requests : Nat),
      (∀ r ∈ replies, keepsPolling r = true) →
      timeoutMs ≤ elapsed + replies.length * pollIntervalMs →
      (bridgePollLoop pollIntervalMs timeoutMs elapsed requests replies).outcome =
        .timeoutFailure (timeoutMs / 1000) := by
  intro replies
  induction replies with
  | nil =>
    intro elapsed requests _ hbudget
    rw [bridgePollLoop_deadline pollIntervalMs timeoutMs elapsed requests [] (by simpa using hbudget)]
  | cons r rest ih =>
    intro elapsed requests hkeep hbudget
    have hr : keepsPolling r = true := hkeep r (List.mem_cons_self r rest)
    have hrest : ∀ x ∈ rest, keepsPolling x = true :=
      fun x hx => hkeep x (List.mem_cons_of_mem r hx)
    have hbudget' : timeoutMs ≤ (elapsed + pollIntervalMs) + rest.length * pollIntervalMs := by
      simp only [List.length_cons] at hbudget
      calc timeoutMs ≤ elapsed + (rest.length + 1) * pollIntervalMs := hbudget
        _ = (elapsed + pollIntervalMs) + rest.length * pollIntervalMs := by ring
    by_cases helapsed : elapsed < timeoutMs
    · cases r with
      | networkError =>
        rw [bridgePollLoop_netError_step pollIntervalMs timeoutMs elapsed requests rest helapsed]
        exact ih (elapsed + pollIntervalMs) (requests + 1) hrest hbudget'
      | reply status body =>
        rw [bridgePollLoop_reply_step pollIntervalMs timeoutMs elapsed requests status body rest helapsed]
        simp only [keepsPolling] at hr
        by_cases h200 : status = 200
        · rw [if_pos h200] at hr ⊢
          cases hcode : extractAuthCode body with
          | none =>
            exact ih (elapsed + pollIntervalMs) (requests + 1) hrest hbudget'
          | some c =>
            rw [hcode] at hr
            have hc : c = "" := by
              by_contra hne
              simp [jsTruthy, hne] at hr
            subst hc
            exact ih (elapsed + pollIntervalMs) (requests + 1) hrest hbudget'
        · rw [if_neg h200] at hr ⊢
          by_cases hpend : status = 202 ∨ status = 204 ∨ status = 404
          · rw [if_pos hpend]
            exact ih (elapsed + pollIntervalMs) (requests + 1) hrest hbudget'
          · rw [if_neg hpend]
            have h410 : ¬ status = 410 := by
              intro h; rw [if_pos h] at hr; exact Bool.false_ne_true hr
            rw [if_neg h410]
            exact ih (elapsed + pollIntervalMs) (requests + 1) hrest hbudget'
    · rw [bridgePollLoop_deadline pollIntervalMs timeoutMs elapsed requests _ helapsed]

/-- C5: for every positive overall timeout, when every observed bridge poll
response is in the keep-polling class and responses keep coming (the
observed trace is at least `timeoutMs` long, each iteration advancing the
clock by the effective poll interval `authBridgePollIntervalMs || 2000`,
which is always at least 1 ms), the poll loop terminates in the timeout
failure whose message reports `Math.floor(timeoutMs / 1000)` whole
seconds. -/
theorem waitForBridgeAuthCode_times_out (authBridgePollIntervalMs timeoutMs : Nat)
    (replies : List BridgeReply) (_hpos : 0 < timeoutMs)
    (hkeep : ∀ r ∈ replies, keepsPolling r = true)
    (hlen : timeoutMs ≤ replies.length) :
    (waitForBridgeAuthCode (effectivePollIntervalMs authBridgePollIntervalMs)
        timeoutMs replies).outcome = .timeoutFailure (timeoutMs / 1000) ∧
    bridgeErrorMessage (.timeoutFailure (timeoutMs / 1000)) =
      some ("Timed out waiting for auth code from bridge after " ++
        toString (timeoutMs / 1000) ++ " seconds.") := by
  have hi : 0 < effectivePollIntervalMs authBridgePollIntervalMs := by
    unfold effectivePollIntervalMs
    split <;> omega
  refine ⟨?_, rfl⟩
  apply bridgePollLoop_times_out _ _ replies 0 0 hkeep
  calc timeoutMs ≤ replies.length := hlen
    _ ≤ replies.length * effectivePollIntervalMs authBridgePollIntervalMs :=
        Nat.le_mul_of_pos_right _ hi
    _ = 0 + replies.length * effectivePollIntervalMs authBridgePollIntervalMs := by ring

/-- Witness for C5: a 3 ms timeout against a trace of three keep-polling
results (202, network error, 200 with a non-JSON body), configured interval
1 ms; the failure reports 0 whole seconds. -/
theorem waitForBridgeAuthCode_times_out_witness :
    (waitForBridgeAuthCode (effectivePollIntervalMs 1) 3
        [.reply 202 .blank, .networkError, .reply 200 .notJson]).outcome =
      .timeoutFailure 0 ∧
    bridgeErrorMessage (.timeoutFailure 0) =
      some ("Timed out waiting for auth code from bridge after " ++
        toString 0 ++ " seconds.") :=
  waitForBridgeAuthCode_times_out 1 3
    [.reply 202 .blank, .networkError, .reply 200 .notJson]
    (by decide) (by decide) (by decide)

/-- C6 counterexample: with a static client-info override configured,
`saveClientInformation` still writes the persisted registration file —
persistence is *not* bypassed entirely for client information. -/
theorem saveClientInformation_writes_despite_override :
    ({ emptyProviderState with
        staticOAuthClientInfo := some ⟨"static-id", none⟩ } : ProviderState).clientInfoFile
      = none ∧
    (saveClientInformation
        { emptyProviderState with staticOAuthClientInfo := some ⟨"static-id", none⟩ }
        ⟨"dynamic-id", none⟩).fileWritten = true ∧
    (saveClientInformation
        { emptyProviderState with staticOAuthClientInfo := some ⟨"static-id", none⟩ }
        ⟨"dynamic-id", none⟩).state.clientInfoFile = some ⟨"dynamic-id", none⟩ := by
  decide

/-- C6 (amended): without a static override, `saveClientInformation(X)`
followed by `clientInformation()` returns `X`; with a static override,
`clientInformation()` always returns the override and never reads the
persisted file — but `saveClientInformation` writes the persisted
registration file unconditionally, override or not. -/
theorem clientInformation_roundtrip (p : ProviderState) (x s : ClientInfo) :
    (p.staticOAuthClientInfo = none →
      (clientInformation (saveClientInformation p x).state).result = some x) ∧
    (p.staticOAuthClientInfo = some s →
      (clientInformation p).result = some s ∧ (clientInformation p).fileRead = false) ∧
    (saveClientInformation p x).state.clientInfoFile = some x ∧
    (saveClientInformation p x).fileWritten = true := by
  refine ⟨fun h => ?_, fun h => ?_, rfl, rfl⟩
  · simp [clientInformation, saveClientInformation, h]
  · simp [clientInformation, h]

/-- Witness for C6 at concrete inputs: a save/read roundtrip with no
override configured, and the unconditional write. -/
theorem clientInformation_roundtrip_witness :
    (clientInformation
        (saveClientInformation emptyProviderState ⟨"client-1", some "a b"⟩).state).result =
      some ⟨"client-1", some "a b"⟩ ∧
    (saveClientInformation emptyProviderState ⟨"client-1", some "a b"⟩).fileWritten = true :=
  ⟨(clientInformation_roundtrip emptyProviderState ⟨"client-1", some "a b"⟩
      ⟨"unused", none⟩).1 rfl,
   (clientInformation_roundtrip emptyProviderState ⟨"client-1", some "a b"⟩
      ⟨"unused", none⟩).2.2.2⟩

/-- C7: each `invalidateCredentials` case deletes exactly the named files,
leaving the other files and the cache (for non-client scopes) unchanged;
after `'client'`, with no other scope source configured, the next scope
computation yields the default rather than the previously cached
registration scope; any argument other than the four known scopes raises
`Unknown credential scope` immediately. -/
theorem invalidateCredentials_exact (p : ProviderState) (sc : String) :
    (∀ q, invalidateCredentials p "client" = .ok q →
      q.clientInfoFile = none ∧ q.memClientInfo = none ∧
      q.tokensFilePresent = p.tokensFilePresent ∧
      q.verifierFilePresent = p.verifierFilePresent ∧
      (noOtherScopeSources p → getEffectiveScope q = "openid email profile")) ∧
    (∀ q, invalidateCredentials p "tokens" = .ok q →
      q.tokensFilePresent = false ∧ q.clientInfoFile = p.clientInfoFile ∧
      q.memClientInfo = p.memClientInfo ∧
      q.verifierFilePresent = p.verifierFilePresent) ∧
    (∀ q, invalidateCredentials p "verifier" = .ok q →
      q.verifierFilePresent = false ∧ q.clientInfoFile = p.clientInfoFile ∧
      q.memClientInfo = p.memClientInfo ∧
      q.tokensFilePresent = p.tokensFilePresent) ∧
    (∀ q, invalidateCredentials p "all" = .ok q →
      q.clientInfoFile = none ∧ q.tokensFilePresent = false ∧
      q.verifierFilePresent = false ∧ q.memClientInfo = none) ∧
    (sc ≠ "all" → sc ≠ "client" → sc ≠ "tokens" → sc ≠ "verifier" →
      invalidateCredentials p sc = .error ("Unknown credential scope: " ++ sc)) := by
  refine ⟨fun q hq => ?_, fun q hq => ?_, fun q hq => ?_, fun q hq => ?_,
    fun h1 h2 h3 h4 => ?_⟩
  · have hstep : invalidateCredentials p "client" =
        .ok { p with clientInfoFile := none, memClientInfo := none } := rfl
    rw [hstep] at hq
    injection hq with h
    subst h
    refine ⟨rfl, rfl, rfl, rfl, fun hsrc => ?_⟩
    obtain ⟨hs1, hs2, hs3, hs5⟩ := hsrc
    have h4 : nonBlankScope ((none : Option ClientInfo).bind ClientInfo.scope) = none := rfl
    have h0 : nonBlankScope (none : Option String) = none := rfl
    simp [getEffectiveScope, hs1, hs2, hs3, hs5, h4, h0]
  · have hstep : invalidateCredentials p "tokens" =
        .ok { p with tokensFilePresent := false } := rfl
    rw [hstep] at hq
    injection hq with h
    subst h
    exact ⟨rfl, rfl, rfl, rfl⟩
  · have hstep : invalidateCredentials p "verifier" =
        .ok { p with verifierFilePresent := false } := rfl
    rw [hstep] at hq
    injection hq with h
    subst h
    exact ⟨rfl, rfl, rfl, rfl⟩
  · have hstep : invalidateCredentials p "all" =
        .ok { p with clientInfoFile := none, tokensFilePresent := false,
                     verifierFilePresent := false, memClientInfo := none } := rfl
    rw [hstep] at hq
    injection hq with h
    subst h
    exact ⟨rfl, rfl, rfl, rfl⟩
  · simp [invalidateCredentials, h1, h2, h3, h4]

/-- Provider state used to witness C7: all three credential files present, a
cached registration whose scope would otherwise win tier 4, and no other
scope source configured. -/
def invalidationDemoState : ProviderState :=
  { emptyProviderState with
    clientInfoFile := some ⟨"client-7", some "extracted custom scopes"⟩
    memClientInfo := some ⟨"client-7", some "extracted custom scopes"⟩
    tokensFilePresent := true
    verifierFilePresent := true }

/-- Witness for C7: invalidating `'client'` on the demo state resets the
next scope computation to the default, and an unknown scope raises. -/
theorem invalidateCredentials_exact_witness :
    getEffectiveScope
        { invalidationDemoState with clientInfoFile := none, memClientInfo := none } =
      "openid email profile" ∧
    invalidateCredentials invalidationDemoState "bogus" =
      .error ("Unknown credential scope: " ++ "bogus") :=
  ⟨((invalidateCredentials_exact invalidationDemoState "bogus").1
      { invalidationDemoState with clientInfoFile := none, memClientInfo := none }
      (by decide)).2.2.2.2 (by decide),
   (invalidateCredentials_exact invalidationDemoState "bogus").2.2.2.2
     (by decide) (by decide) (by decide) (by decide)⟩

/-- C10: for a 200 bridge response parsing as JSON, `extractAuthCode`
implements `parsed.code || parsed.authorization_code` and the poll loop
checks the result for JS truthiness: a non-empty `code` wins and is
returned; an absent or empty `code` defers to `authorization_code`, which
is returned when non-empty; when both are absent or empty the response
counts as not-yet-ready and the loop keeps polling. -/
theorem extractAuthCode_priority (f : JsonFields)
    (pollIntervalMs timeoutMs elapsed requests : Nat) (rest : List BridgeReply) :
    (∀ c, f.code = some c → c ≠ "" →
      extractAuthCode (.json f) = some c ∧
      (elapsed < timeoutMs →
        bridgePollLoop pollIntervalMs timeoutMs elapsed requests
            (.reply 200 (.json f) :: rest) = ⟨.code c, requests + 1⟩)) ∧
    ((f.code = none ∨ f.code = some "") →
      extractAuthCode (.json f) = f.authorization_code ∧
      (∀ a, f.authorization_code = some a → a ≠ "" → elapsed < timeoutMs →
        bridgePollLoop pollIntervalMs timeoutMs elapsed requests
            (.reply 200 (.json f) :: rest) = ⟨.code a, requests + 1⟩)) ∧
    (jsTruthy f.code = false → jsTruthy f.authorization_code = false →
      elapsed < timeoutMs →
      bridgePollLoop pollIntervalMs timeoutMs elapsed requests
          (.reply 200 (.json f) :: rest) =
        bridgePollLoop pollIntervalMs timeoutMs (elapsed + pollIntervalMs)
          (requests + 1) rest) := by
  refine ⟨fun c hc hne => ?_, fun hcode => ?_, fun hc ha helapsed => ?_⟩
  · have hex : extractAuthCode (.json f) = some c := by
      simp [extractAuthCode, jsTruthy, hc, hne]
    refine ⟨hex, fun helapsed => ?_⟩
    rw [bridgePollLoop_reply_step _ _ _ _ _ _ _ helapsed, if_pos rfl, hex]
    simp [hne]
  · have hfalse : jsTruthy f.code = false := by
      rcases hcode with h | h <;> simp [jsTruthy, h]
    have hex : extractAuthCode (.json f) = f.authorization_code := by
      simp [extractAuthCode, hfalse]
    refine ⟨hex, fun a ha hane helapsed => ?_⟩
    rw [bridgePollLoop_reply_step _ _ _ _ _ _ _ helapsed, if_pos rfl, hex, ha]
    simp [hane]
  · have hex : extractAuthCode (.json f) = f.authorization_code := by
      simp [extractAuthCode, hc]
    rw [bridgePollLoop_reply_step _ _ _ _ _ _ _ helapsed, if_pos rfl, hex]
    cases hcase : f.authorization_code with
    | none => rfl
    | some a =>
      rw [hcase] at ha
      have : a = "" := by
        by_contra hne
        simp [jsTruthy, hne] at ha
      subst this
      rfl

/-- Witness for C10 at the concrete bodies the repository's tests use
(`code` field, `authorization_code` field) plus the both-empty case. -/
theorem extractAuthCode_priority_witness :
    extractAuthCode (.json ⟨some "auth-code-1", some "auth-code-2"⟩) =
      some "auth-code-1" ∧
    bridgePollLoop 1 10 0 0
        [.reply 200 (.json ⟨none, some "auth-code-2"⟩)] =
      ⟨.code "auth-code-2", 1⟩ ∧
    bridgePollLoop 1 10 0 0 [.reply 200 (.json ⟨some "", some ""⟩)] =
      bridgePollLoop 1 10 1 1 [] :=
  ⟨((extractAuthCode_priority ⟨some "auth-code-1", some "auth-code-2"⟩ 1 10 0 0 []).1
      "auth-code-1" rfl (by decide)).1,
   ((extractAuthCode_priority ⟨none, some "auth-code-2"⟩ 1 10 0 0 []).2.1
      (Or.inl rfl)).2 "auth-code-2" rfl (by decide) (by decide),
   (extractAuthCode_priority ⟨some "", some ""⟩ 1 10 0 0 []).2.2 (by decide)
     (by decide) (by decide)⟩
